import Mathlib

/-! Verification of the tanks simulation core (src/main.rs).

The Rust code computes with f32; every arithmetic expression is modelled
exactly over the real numbers (the idealized semantics of the float
formulas, with no rounding). Vector and quaternion operations are
transliterated from the glam library functions the code calls
(Vec3 arithmetic, Quat::mul_vec3, Quat::from_axis_angle) and from bevy's
Transform::looking_at chain. The Perlin noise generator is kept abstract:
systems that read it are parametrized by an arbitrary noise function
ℝ → ℝ → ℝ → ℝ, which only ever appears applied to the same sample points
the code uses. -/

namespace Tanks

/-- Three-component vector, modelling glam Vec3 (f32 fields idealized as ℝ). -/
@[ext]
structure Vec3 where
  x : ℝ
  y : ℝ
  z : ℝ

/-- Componentwise vector addition (glam impl Add for Vec3). -/
def Vec3.add (a b : Vec3) : Vec3 := ⟨a.x + b.x, a.y + b.y, a.z + b.z⟩

instance : Add Vec3 := ⟨Vec3.add⟩

/-- Componentwise vector subtraction (glam impl Sub for Vec3). -/
def Vec3.sub (a b : Vec3) : Vec3 := ⟨a.x - b.x, a.y - b.y, a.z - b.z⟩

instance : Sub Vec3 := ⟨Vec3.sub⟩

/-- Componentwise vector negation (glam impl Neg for Vec3). -/
def Vec3.neg (a : Vec3) : Vec3 := ⟨-a.x, -a.y, -a.z⟩

instance : Neg Vec3 := ⟨Vec3.neg⟩

/-- Componentwise vector multiplication (glam impl Mul of Vec3 by Vec3),
used by the code for the bounce damping `velocity.val *= damping`. -/
def Vec3.cmul (a b : Vec3) : Vec3 := ⟨a.x * b.x, a.y * b.y, a.z * b.z⟩

instance : Mul Vec3 := ⟨Vec3.cmul⟩

/-- Multiplication of a vector by a scalar (glam impl Mul of Vec3 by f32). -/
def Vec3.scale (v : Vec3) (c : ℝ) : Vec3 := ⟨v.x * c, v.y * c, v.z * c⟩

/-- Division of a vector by a scalar (glam impl Div of Vec3 by f32),
used by the code for `transform.translation / 10.0`. -/
noncomputable def Vec3.divScalar (v : Vec3) (c : ℝ) : Vec3 := ⟨v.x / c, v.y / c, v.z / c⟩

/-- Dot product (glam Vec3::dot). -/
def Vec3.dot (a b : Vec3) : ℝ := a.x * b.x + a.y * b.y + a.z * b.z

/-- Cross product (glam Vec3::cross). -/
def Vec3.cross (a b : Vec3) : Vec3 :=
  ⟨a.y * b.z - a.z * b.y, a.z * b.x - a.x * b.z, a.x * b.y - a.y * b.x⟩

/-- Squared euclidean length (glam Vec3::length_squared = dot with itself). -/
def Vec3.length_squared (v : Vec3) : ℝ := v.dot v

/-- The world-up unit vector Vec3::Y. -/
def Vec3.unitY : Vec3 := ⟨0, 1, 0⟩

@[simp] theorem Vec3.add_x (a b : Vec3) : (a + b).x = a.x + b.x := rfl
@[simp] theorem Vec3.add_y (a b : Vec3) : (a + b).y = a.y + b.y := rfl
@[simp] theorem Vec3.add_z (a b : Vec3) : (a + b).z = a.z + b.z := rfl
@[simp] theorem Vec3.sub_x (a b : Vec3) : (a - b).x = a.x - b.x := rfl
@[simp] theorem Vec3.sub_y (a b : Vec3) : (a - b).y = a.y - b.y := rfl
@[simp] theorem Vec3.sub_z (a b : Vec3) : (a - b).z = a.z - b.z := rfl
@[simp] theorem Vec3.cmul_x (a b : Vec3) : (a * b).x = a.x * b.x := rfl
@[simp] theorem Vec3.cmul_y (a b : Vec3) : (a * b).y = a.y * b.y := rfl
@[simp] theorem Vec3.cmul_z (a b : Vec3) : (a * b).z = a.z * b.z := rfl
@[simp] theorem Vec3.scale_x (v : Vec3) (c : ℝ) : (v.scale c).x = v.x * c := rfl
@[simp] theorem Vec3.scale_y (v : Vec3) (c : ℝ) : (v.scale c).y = v.y * c := rfl
@[simp] theorem Vec3.scale_z (v : Vec3) (c : ℝ) : (v.scale c).z = v.z * c := rfl

/-- Quaternion, modelling glam Quat (f32 fields idealized as ℝ). -/
@[ext]
structure Quat where
  x : ℝ
  y : ℝ
  z : ℝ
  w : ℝ

/-- The identity quaternion Quat::IDENTITY = (0, 0, 0, 1). -/
def Quat.identity : Quat := ⟨0, 0, 0, 1⟩

/-- Rotation of a vector by a quaternion, transliterated from glam's scalar
Quat::mul_vec3: rhs * (w² − b·b) + b * (rhs·b * 2) + (b × rhs) * (w * 2)
where b is the quaternion's vector part. -/
def Quat.mul_vec3 (q : Quat) (v : Vec3) : Vec3 :=
  let w := q.w
  let b : Vec3 := ⟨q.x, q.y, q.z⟩
  let b2 := b.dot b
  v.scale (w * w - b2) + b.scale (v.dot b * 2) + (b.cross v).scale (w * 2)

/-- Quat::from_axis_angle, transliterated from glam: the quaternion
(axis * sin(angle/2), cos(angle/2)). -/
noncomputable def Quat.from_axis_angle (axis : Vec3) (angle : ℝ) : Quat :=
  let s := Real.sin (angle * 0.5)
  let c := Real.cos (angle * 0.5)
  ⟨axis.x * s, axis.y * s, axis.z * s, c⟩

/-- Rotating a vector by the identity quaternion leaves it unchanged. -/
theorem Quat.identity_mul_vec3 (v : Vec3) : Quat.identity.mul_vec3 v = v := by
  unfold Quat.identity Quat.mul_vec3
  ext <;> simp [Vec3.dot, Vec3.cross, Vec3.scale]

/-- Bevy Transform: translation, rotation and scale. -/
@[ext]
structure Transform where
  translation : Vec3
  rotation : Quat
  scale : Vec3

/-- Transform::default(): zero translation, identity rotation, unit scale. -/
def Transform.dflt : Transform := ⟨⟨0, 0, 0⟩, Quat.identity, ⟨1, 1, 1⟩⟩

/-! ## Projectile Integrator (cannonball_update, src/main.rs lines 194-227)

The Rust system runs the same body independently for every cannonball
entity; the body below is the per-entity step. The despawn request issued
through the parallel command queue is modelled as a Bool flag. -/

/-- One Projectile Integrator tick for one cannonball, transliterated from
the body of the par_iter_mut loop in cannonball_update:
move by velocity * dt; if the new height is below 0.1, push the height back
up to 0.1 (`translation.y += 0.1 - translation.y`) and multiply the velocity
componentwise by the damping vector (0.8, -0.8, 0.8); subtract 9.82 * dt
from the vertical velocity; request a despawn when the squared length of
the resulting velocity is below 0.1. -/
noncomputable def cannonball_update (dt : ℝ) (transform : Transform) (velocity : Vec3) :
    Transform × Vec3 × Bool :=
  let t1 : Transform := { transform with translation := transform.translation + velocity.scale dt }
  let bounce := t1.translation.y < 0.1
  let t2 : Transform :=
    if bounce then
      { t1 with translation :=
          ⟨t1.translation.x, t1.translation.y + (0.1 - t1.translation.y), t1.translation.z⟩ }
    else t1
  let damping : Vec3 := ⟨0.8, -0.8, 0.8⟩
  let v2 : Vec3 := if bounce then velocity * damping else velocity
  let v3 : Vec3 := ⟨v2.x, v2.y - 9.82 * dt, v2.z⟩
  (t2, v3, decide (v3.length_squared < 0.1))

/-- Iterated Projectile Integrator ticks with per-tick elapsed times dts,
discarding the despawn flag (the flag at tick n+1 is recoverable by applying
cannonball_update to the state after n ticks). -/
noncomputable def cannonball_iterate (dts : ℕ → ℝ) (s : Transform × Vec3) :
    ℕ → Transform × Vec3
  | 0 => s
  | n + 1 =>
      let p := cannonball_iterate dts s n
      let r := cannonball_update (dts n) p.1 p.2
      (r.1, r.2.1)

/-- C1: one Projectile Integrator tick performs, in order: position +=
velocity * elapsed_time; then, if the resulting height is below 0.1, the
height is set to exactly 0.1 and the velocity is multiplied componentwise
by (0.8, -0.8, 0.8); then velocity.y -= 9.82 * elapsed_time unconditionally
(including on a bounce tick); finally the despawn request is issued if and
only if the squared magnitude of the post-update velocity is below the
threshold 0.1 itself (not sqrt 0.1). -/
theorem C1_projectile_tick_order (dt : ℝ) (transform : Transform) (velocity : Vec3) :
    (cannonball_update dt transform velocity).1.translation =
      (if (transform.translation + velocity.scale dt).y < 0.1 then
        ⟨(transform.translation + velocity.scale dt).x, 0.1,
          (transform.translation + velocity.scale dt).z⟩
       else transform.translation + velocity.scale dt) ∧
    (cannonball_update dt transform velocity).2.1 =
      (if (transform.translation + velocity.scale dt).y < 0.1 then
        ⟨velocity.x * 0.8, velocity.y * (-0.8), velocity.z * 0.8⟩
       else velocity) - ⟨0, 9.82 * dt, 0⟩ ∧
    ((cannonball_update dt transform velocity).2.2 = true ↔
      ((cannonball_update dt transform velocity).2.1).length_squared < 0.1) := by
  unfold cannonball_update
  dsimp only
  refine ⟨?_, ?_, ?_⟩
  · split_ifs with h
    · ext <;> simp
    · rfl
  · split_ifs with h
    · ext <;> simp [Vec3.cmul]
    · ext <;> simp
  · split_ifs with h <;> simp

/-- Helper for C5: the height produced by a single tick is at least 0.1. -/
theorem cannonball_update_floor (dt : ℝ) (transform : Transform) (velocity : Vec3) :
    (0.1 : ℝ) ≤ (cannonball_update dt transform velocity).1.translation.y := by
  unfold cannonball_update
  dsimp only
  split_ifs with h
  · simp
  · simpa using le_of_not_lt h

/-- C5: after any Projectile Integrator tick (here: after the last of n+1
ticks with arbitrary per-tick elapsed times, from an arbitrary start state),
the projectile's height is at least 0.1 exactly; a fortiori it is at least
0.1 − ε for every tolerance ε ≥ 0, so no sequence of ticks ever leaves a
projectile below the clamp height. -/
theorem C5_ground_floor (dts : ℕ → ℝ) (s : Transform × Vec3) (n : ℕ) :
    (0.1 : ℝ) ≤ (cannonball_iterate dts s (n + 1)).1.translation.y := by
  show (0.1 : ℝ) ≤ (cannonball_update (dts n) (cannonball_iterate dts s n).1
    (cannonball_iterate dts s n).2).1.translation.y
  exact cannonball_update_floor _ _ _

/-! ## Agent Motion System and Projectile Spawner
(ai_tank_update, src/main.rs lines 128-158; spawn_cannonball, lines 160-192)

The Perlin generator is abstracted as a function noiseGen; the system only
ever evaluates it at the sample point the code builds. The AiTank's material
handle is an opaque visual identifier never inspected by the simulation
logic, so it is omitted from the model. Spawning is modelled by returning
the spawned cannonball's initial transform and velocity. -/

/-- One AiTank identity: the id that seeds the noise function. -/
structure AiTank where
  id : ℕ

/-- The per-tank body of the ai_tank_update loop, without the spawn call:
sample the noise at (x/10, id, z/10) built from the pre-update translation,
derive the heading angle (0.5 + noise) * 4 * π, translate by the horizontal
direction (sin, 0, cos) times dt times 5, and set the rotation to the yaw
by that angle. -/
noncomputable def ai_tank_step (noiseGen : ℝ → ℝ → ℝ → ℝ) (dt : ℝ) (id : ℕ)
    (transform : Transform) : Transform :=
  let seed := transform.translation.divScalar 10
  let noiseVal := noiseGen seed.x (id : ℝ) seed.z
  let angle := (0.5 + noiseVal) * 4 * Real.pi
  let tank_direction : Vec3 := ⟨Real.sin angle, 0, Real.cos angle⟩
  { transform with
      translation := transform.translation + (tank_direction.scale dt).scale 5,
      rotation := Quat.from_axis_angle Vec3.unitY angle }

/-- Projectile Spawner, transliterated from spawn_cannonball: muzzle offset =
rotation applied to (0, 1.235, 0.324); spawn position = tank position +
offset; spawn rotation copied from the tank; spawn velocity = rotation
applied to (0, 0.717, 0.8) * 20. Returns the spawned transform and velocity
(the spawned entity's scale is the fixed (0.2, 0.2, 0.2)). -/
noncomputable def spawn_cannonball (tank_transform : Transform) : Transform × Vec3 :=
  let offset := tank_transform.rotation.mul_vec3 ⟨0, 1.235, 0.324⟩
  let transform : Transform :=
    { translation := tank_transform.translation + offset,
      rotation := tank_transform.rotation,
      scale := ⟨0.2, 0.2, 0.2⟩ }
  let velocity := tank_transform.rotation.mul_vec3 ((⟨0, 0.717, 0.8⟩ : Vec3).scale 20)
  (transform, velocity)

/-- One full Agent Motion System tick over the list of AI tanks: each tank
is stepped and then fires exactly once from its post-update transform, as in
the ai_tank_update loop. Returns the updated tanks and the spawned
cannonballs, in iteration order. -/
noncomputable def ai_tank_update (noiseGen : ℝ → ℝ → ℝ → ℝ) (dt : ℝ) :
    List (AiTank × Transform) → List (AiTank × Transform) × List (Transform × Vec3)
  | [] => ([], [])
  | (tank, transform) :: rest =>
      let t2 := ai_tank_step noiseGen dt tank.id transform
      let r := ai_tank_update noiseGen dt rest
      ((tank, t2) :: r.1, spawn_cannonball t2 :: r.2)

/-- Iterated Agent Motion System ticks for a single tank, with per-tick
elapsed times dts. -/
noncomputable def ai_tank_iterate (noiseGen : ℝ → ℝ → ℝ → ℝ) (dts : ℕ → ℝ) (id : ℕ)
    (transform : Transform) : ℕ → Transform
  | 0 => transform
  | n + 1 => ai_tank_step noiseGen (dts n) id (ai_tank_iterate noiseGen dts id transform n)

/-- The heading angle an agent computes on a tick: the noise field sampled at
(x/10, id, z/10) from the pre-update position, mapped through
angle = (0.5 + noise) * 4π. -/
noncomputable def tank_heading (noiseGen : ℝ → ℝ → ℝ → ℝ) (id : ℕ) (t : Transform) : ℝ :=
  (0.5 + noiseGen (t.translation.x / 10) (id : ℝ) (t.translation.z / 10)) * (4 * Real.pi)

/-- Rotating a vector by a quaternion commutes with scalar multiplication of
the vector. -/
theorem Quat.mul_vec3_scale (q : Quat) (v : Vec3) (c : ℝ) :
    q.mul_vec3 (v.scale c) = (q.mul_vec3 v).scale c := by
  unfold Quat.mul_vec3
  ext <;> simp [Vec3.dot, Vec3.cross, Vec3.scale] <;> ring

/-- A yaw rotation (a from_axis_angle quaternion about the vertical axis)
maps the world-up vector to itself. -/
theorem Quat.from_axis_angle_unitY_up (angle : ℝ) :
    (Quat.from_axis_angle Vec3.unitY angle).mul_vec3 Vec3.unitY = Vec3.unitY := by
  unfold Quat.from_axis_angle Quat.mul_vec3 Vec3.unitY
  ext <;> simp [Vec3.dot, Vec3.cross, Vec3.scale]
  linear_combination Real.sin_sq_add_cos_sq (angle * 0.5)

/-- C2: every Agent Motion System tick samples the noise field at
(x/10, id, z/10) built from the pre-update position, computes the heading
angle (0.5 + noise) * 4π, translates the agent by (sin angle, 0, cos angle)
times 5 times elapsed_time leaving the vertical position unchanged, and sets
the orientation to the rotation by that angle about the vertical axis. -/
theorem C2_agent_motion_tick (noiseGen : ℝ → ℝ → ℝ → ℝ) (dt : ℝ) (id : ℕ) (t : Transform) :
    (ai_tank_step noiseGen dt id t).translation =
      t.translation + (⟨Real.sin (tank_heading noiseGen id t), 0,
        Real.cos (tank_heading noiseGen id t)⟩ : Vec3).scale (5 * dt) ∧
    (ai_tank_step noiseGen dt id t).translation.y = t.translation.y ∧
    (ai_tank_step noiseGen dt id t).rotation =
      Quat.from_axis_angle Vec3.unitY (tank_heading noiseGen id t) := by
  have hangle : (0.5 + noiseGen ((t.translation.divScalar 10).x) (id : ℝ)
      ((t.translation.divScalar 10).z)) * 4 * Real.pi = tank_heading noiseGen id t := by
    unfold tank_heading Vec3.divScalar
    ring
  unfold ai_tank_step
  dsimp only
  rw [hangle]
  refine ⟨?_, ?_, rfl⟩
  · ext <;> simp [Vec3.scale] <;> ring
  · simp [Vec3.scale]

/-- C6: orientation purity. If an agent's orientation fixes the world-up
vector, then after any number of Agent Motion System ticks it still does:
every tick overwrites the orientation with a pure yaw about the vertical
axis, so no roll or pitch is ever introduced. -/
theorem C6_orientation_purity (noiseGen : ℝ → ℝ → ℝ → ℝ) (dts : ℕ → ℝ) (id : ℕ)
    (t : Transform) (n : ℕ) (h : t.rotation.mul_vec3 Vec3.unitY = Vec3.unitY) :
    (ai_tank_iterate noiseGen dts id t n).rotation.mul_vec3 Vec3.unitY = Vec3.unitY := by
  induction n with
  | zero => exact h
  | succ n _ =>
      show (ai_tank_step noiseGen (dts n) id
        (ai_tank_iterate noiseGen dts id t n)).rotation.mul_vec3 Vec3.unitY = Vec3.unitY
      unfold ai_tank_step
      exact Quat.from_axis_angle_unitY_up _

/-- C6 witness: a concrete agent starting at the default transform (identity
orientation, which fixes world-up) still fixes world-up after one tick. -/
theorem C6_orientation_purity_witness :
    (ai_tank_iterate (fun _ _ _ => 0) (fun _ => 0) 0 Transform.dflt 1).rotation.mul_vec3
      Vec3.unitY = Vec3.unitY :=
  C6_orientation_purity (fun _ _ _ => 0) (fun _ => 0) 0 Transform.dflt 1
    (Quat.identity_mul_vec3 Vec3.unitY)

/-- C3: a tank at the origin with identity orientation spawns a cannonball
at position (0, 1.235, 0.324) with velocity (0, 14.34, 16); in general the
spawn position is the firing position plus the firing orientation applied to
(0, 1.235, 0.324), the spawn velocity is the firing orientation applied to
(0, 0.717, 0.8) scaled by 20, and the spawn orientation is copied from the
firing orientation. -/
theorem C3_spawn_pose :
    ((spawn_cannonball Transform.dflt).1.translation = ⟨0, 1.235, 0.324⟩ ∧
     (spawn_cannonball Transform.dflt).2 = ⟨0, 14.34, 16⟩) ∧
    ∀ t : Transform,
      (spawn_cannonball t).1.translation =
        t.translation + t.rotation.mul_vec3 ⟨0, 1.235, 0.324⟩ ∧
      (spawn_cannonball t).2 = (t.rotation.mul_vec3 ⟨0, 0.717, 0.8⟩).scale 20 ∧
      (spawn_cannonball t).1.rotation = t.rotation := by
  constructor
  · unfold spawn_cannonball Transform.dflt
    dsimp only
    rw [Quat.identity_mul_vec3, Quat.identity_mul_vec3]
    constructor
    · ext <;> simp
    · ext <;> simp [Vec3.scale] <;> norm_num
  · intro t
    refine ⟨rfl, ?_, rfl⟩
    show t.rotation.mul_vec3 ((⟨0, 0.717, 0.8⟩ : Vec3).scale 20) =
      (t.rotation.mul_vec3 ⟨0, 0.717, 0.8⟩).scale 20
    exact Quat.mul_vec3_scale _ _ _

/-- Helper: a zero-duration agent step keeps the translation and sets the
rotation to the yaw by the noise-derived heading. -/
theorem ai_tank_step_zero_dt (noiseGen : ℝ → ℝ → ℝ → ℝ) (id : ℕ) (t : Transform) :
    (ai_tank_step noiseGen 0 id t).translation = t.translation ∧
    (ai_tank_step noiseGen 0 id t).rotation =
      Quat.from_axis_angle Vec3.unitY (tank_heading noiseGen id t) := by
  have hangle : (0.5 + noiseGen ((t.translation.divScalar 10).x) (id : ℝ)
      ((t.translation.divScalar 10).z)) * 4 * Real.pi = tank_heading noiseGen id t := by
    unfold tank_heading Vec3.divScalar
    ring
  unfold ai_tank_step
  dsimp only
  rw [hangle]
  constructor
  · ext <;> simp [Vec3.scale]
  · rfl

/-- C10: with elapsed_time = 0, an Agent Motion System tick leaves every
agent's position exactly unchanged, still sets every agent's orientation to
the freshly computed noise-derived heading, and still spawns exactly one
cannonball per agent, so the projectile population grows by the number of
agents even on a zero-duration tick. -/
theorem C10_zero_dt_tick (noiseGen : ℝ → ℝ → ℝ → ℝ) (agents : List (AiTank × Transform)) :
    (ai_tank_update noiseGen 0 agents).2.length = agents.length ∧
    (ai_tank_update noiseGen 0 agents).1.map (fun a => a.2.translation) =
      agents.map (fun a => a.2.translation) ∧
    (ai_tank_update noiseGen 0 agents).1.map (fun a => a.2.rotation) =
      agents.map (fun a => Quat.from_axis_angle Vec3.unitY
        (tank_heading noiseGen a.1.id a.2)) := by
  induction agents with
  | nil => exact ⟨rfl, rfl, rfl⟩
  | cons a rest ih =>
      obtain ⟨tank, transform⟩ := a
      have hstep := ai_tank_step_zero_dt noiseGen tank.id transform
      refine ⟨?_, ?_, ?_⟩
      · show (ai_tank_update noiseGen 0 rest).2.length + 1 = rest.length + 1
        rw [ih.1]
      · show (ai_tank_step noiseGen 0 tank.id transform).translation ::
          (ai_tank_update noiseGen 0 rest).1.map (fun a => a.2.translation) =
          transform.translation :: rest.map (fun a => a.2.translation)
        rw [ih.2.1, hstep.1]
      · show (ai_tank_step noiseGen 0 tank.id transform).rotation ::
          (ai_tank_update noiseGen 0 rest).1.map (fun a => a.2.rotation) =
          Quat.from_axis_angle Vec3.unitY (tank_heading noiseGen tank.id transform) ::
            rest.map (fun a => Quat.from_axis_angle Vec3.unitY
              (tank_heading noiseGen a.1.id a.2))
        rw [ih.2.2, hstep.2]

/-! ## Camera Tracker (camera_update and camera_transform, src/main.rs
lines 229-250)

Transform::looking_at is transliterated from bevy (look_at / look_to) and
glam (try_normalize, any_orthonormal_vector, Quat::from_mat3 via
from_rotation_axes), idealizing f32 by ℝ: the is_finite guard of
try_normalize cannot fire over ℝ, leaving the positive-length test. -/

/-- Euclidean length (glam Vec3::length). -/
noncomputable def Vec3.length (v : Vec3) : ℝ := Real.sqrt v.length_squared

/-- glam Vec3::try_normalize: divide by the length when its reciprocal is
positive (and finite), otherwise None. -/
noncomputable def Vec3.try_normalize (v : Vec3) : Option Vec3 :=
  if 0 < v.length then some (v.divScalar v.length) else none

/-- glam Vec3::NEG_Z. -/
def Vec3.negZ : Vec3 := ⟨0, 0, -1⟩

/-- glam Vec3::any_orthonormal_vector (the Pixar orthonormal-basis formula),
with copysign(1, z) modelled as -1 for negative z and 1 otherwise. -/
noncomputable def Vec3.any_orthonormal_vector (v : Vec3) : Vec3 :=
  let sign : ℝ := if v.z < 0 then -1 else 1
  let a := -1 / (sign + v.z)
  let b := v.x * v.y * a
  ⟨b, sign + v.y * v.y * a, -v.y⟩

/-- glam Quat::from_mat3 on a matrix with columns (x_axis, y_axis, z_axis),
transliterated from from_rotation_axes. -/
noncomputable def Quat.from_rotation_axes (x_axis y_axis z_axis : Vec3) : Quat :=
  let m00 := x_axis.x
  let m01 := x_axis.y
  let m02 := x_axis.z
  let m10 := y_axis.x
  let m11 := y_axis.y
  let m12 := y_axis.z
  let m20 := z_axis.x
  let m21 := z_axis.y
  let m22 := z_axis.z
  if m22 ≤ 0 then
    let dif10 := m11 - m00
    let omm22 := 1 - m22
    if dif10 ≤ 0 then
      let four_xsq := omm22 - dif10
      let inv4x := 0.5 / Real.sqrt four_xsq
      ⟨four_xsq * inv4x, (m01 + m10) * inv4x, (m02 + m20) * inv4x, (m12 - m21) * inv4x⟩
    else
      let four_ysq := omm22 + dif10
      let inv4y := 0.5 / Real.sqrt four_ysq
      ⟨(m01 + m10) * inv4y, four_ysq * inv4y, (m12 + m21) * inv4y, (m20 - m02) * inv4y⟩
  else
    let sum10 := m11 + m00
    let opm22 := 1 + m22
    if sum10 ≤ 0 then
      let four_zsq := opm22 - sum10
      let inv4z := 0.5 / Real.sqrt four_zsq
      ⟨(m02 + m20) * inv4z, (m12 + m21) * inv4z, four_zsq * inv4z, (m01 - m10) * inv4z⟩
    else
      let four_wsq := opm22 + sum10
      let inv4w := 0.5 / Real.sqrt four_wsq
      ⟨(m12 - m21) * inv4w, (m20 - m02) * inv4w, (m01 - m10) * inv4w, four_wsq * inv4w⟩

/-- Bevy Transform::look_to: the rotation whose back axis is the normalized
opposite of the view direction, built from the orthonormalized
(right, up, back) frame. -/
noncomputable def look_to_rotation (direction up : Vec3) : Quat :=
  let back := -(direction.try_normalize.getD Vec3.negZ)
  let upn := up.try_normalize.getD Vec3.unitY
  let right := (upn.cross back).try_normalize.getD upn.any_orthonormal_vector
  let up2 := back.cross right
  Quat.from_rotation_axes right up2 back

/-- Bevy Transform::looking_at(target, up): rotate to face target (look_at
passes direction = target - translation to look_to). -/
noncomputable def Transform.looking_at (t : Transform) (target up : Vec3) : Transform :=
  { t with rotation := look_to_rotation (target - t.translation) up }

/-- camera_transform, transliterated from src/main.rs: place the camera at
the player translation plus the player rotation applied to (0, 5, -10), then
face the target (player translation + Vec3::Y) with up = Vec3::Y. -/
noncomputable def camera_transform (tank_transform : Transform) : Transform :=
  let camera_local_translation := tank_transform.rotation.mul_vec3 ⟨0, 5, -10⟩
  let translation := tank_transform.translation + camera_local_translation
  let target := tank_transform.translation + Vec3.unitY
  Transform.looking_at ⟨translation, Quat.identity, ⟨1, 1, 1⟩⟩ target Vec3.unitY

/-- Bevy Query::get_single semantics: Some exactly when the query matches
exactly one entity. -/
def get_single {α : Type} : List α → Option α
  | [a] => some a
  | _ => none

/-- camera_update, modelled over the lists of camera transforms and player
tank transforms matched by its two queries. The source unwraps
get_single() on the player query and single_mut() on the camera query, both
of which panic (abort the process) unless exactly one entity matches;
the panic is modelled as none, a normal tick as some of the new camera
transform. -/
noncomputable def camera_update (cameras players : List Transform) : Option Transform :=
  match get_single players with
  | none => none
  | some tank_transform =>
      match get_single cameras with
      | none => none
      | some _ => some (camera_transform tank_transform)

/-- C4: the camera is placed at the player position plus the player
orientation applied to (0, 5, -10), and its orientation is the look-to
rotation facing from that camera position toward the player position plus
(0, 1, 0) with up the world vertical; for the default player pose the
camera lands at (0, 5, -10) looking at the target (0, 1, 0). -/
theorem C4_camera_follow :
    (∀ t : Transform,
      (camera_transform t).translation = t.translation + t.rotation.mul_vec3 ⟨0, 5, -10⟩ ∧
      (camera_transform t).rotation = look_to_rotation
        ((t.translation + Vec3.unitY) - (camera_transform t).translation) Vec3.unitY) ∧
    (camera_transform Transform.dflt).translation = ⟨0, 5, -10⟩ ∧
    (camera_transform Transform.dflt).rotation =
      look_to_rotation ((⟨0, 1, 0⟩ : Vec3) - ⟨0, 5, -10⟩) Vec3.unitY := by
  have hgen : ∀ t : Transform,
      (camera_transform t).translation = t.translation + t.rotation.mul_vec3 ⟨0, 5, -10⟩ ∧
      (camera_transform t).rotation = look_to_rotation
        ((t.translation + Vec3.unitY) - (camera_transform t).translation) Vec3.unitY :=
    fun t => ⟨rfl, rfl⟩
  refine ⟨hgen, ?_, ?_⟩
  · rw [(hgen Transform.dflt).1]
    unfold Transform.dflt
    rw [Quat.identity_mul_vec3]
    ext <;> simp
  · rw [(hgen Transform.dflt).2, (hgen Transform.dflt).1]
    unfold Transform.dflt
    rw [Quat.identity_mul_vec3]
    have h1 : (⟨0, 0, 0⟩ : Vec3) + Vec3.unitY = ⟨0, 1, 0⟩ := by
      unfold Vec3.unitY
      ext <;> simp
    have h2 : (⟨0, 0, 0⟩ : Vec3) + (⟨0, 5, -10⟩ : Vec3) = ⟨0, 5, -10⟩ := by
      ext <;> simp
    rw [h1, h2]

/-- C8: the Camera Tracker aborts the process (modelled: returns none)
exactly when the number of player-marked entities or the number of camera
entities differs from one; with exactly one of each it always produces the
followed camera transform, never skipping the tick or substituting a
default pose. -/
theorem C8_camera_single_fail_fast :
    (∀ cameras players : List Transform,
      (camera_update cameras players = none ↔
        players.length ≠ 1 ∨ cameras.length ≠ 1)) ∧
    ∀ c p : Transform, camera_update [c] [p] = some (camera_transform p) := by
  constructor
  · intro cameras players
    rcases players with _ | ⟨p, _ | ⟨p2, ps⟩⟩ <;>
      rcases cameras with _ | ⟨c, _ | ⟨c2, cs⟩⟩ <;>
        simp [camera_update, get_single]
  · intro c p
    rfl

/-! ## Update-schedule registration (main, src/main.rs lines 10-28)

The app registers `.add_systems(Update, (ai_tank_update, camera_update,
cannonball_update))`. In bevy, a plain tuple of systems adds all of them to
the schedule with NO ordering constraints between them (ordering would
require `.chain()` or explicit `.before`/`.after` edges, none of which
appear in the source); the scheduler may run them in any order compatible
with the declared constraints. The model below records the registered
system set and the declared ordering edges, and calls an execution order
valid when it is a permutation of the registered systems respecting every
declared edge. -/

/-- The three systems registered on the Update schedule. -/
inductive SystemId where
  | aiTankSys
  | cameraSys
  | cannonballSys
deriving DecidableEq

/-- The systems in tuple order from
`.add_systems(Update, (ai_tank_update, camera_update, cannonball_update))`. -/
def update_systems : List SystemId := [.aiTankSys, .cameraSys, .cannonballSys]

/-- The ordering edges declared by the source for the Update schedule:
none, because the tuple is not chained and no before/after constraint is
declared anywhere in main. -/
def update_ordering_edges : List (SystemId × SystemId) := []

/-- a runs before b in the execution order e. -/
def RunsBefore (a b : SystemId) (e : List SystemId) : Prop :=
  e.indexOf a < e.indexOf b

/-- An execution order of one Update tick is valid when it is a permutation
of the registered systems that respects every declared ordering edge. -/
def ValidTickOrder (e : List SystemId) : Prop :=
  e.Perm update_systems ∧ ∀ c ∈ update_ordering_edges, RunsBefore c.1 c.2 e

/-- C7 counterexample: the execution order (camera, agents, projectiles) is
a valid tick order for the registered schedule, yet the Projectile
Integrator does not run before the Camera Tracker in it — the claimed
agents → projectiles → camera sequencing is not enforced by the code. -/
theorem C7_counterexample :
    ValidTickOrder [SystemId.cameraSys, SystemId.aiTankSys, SystemId.cannonballSys] ∧
    ¬ RunsBefore SystemId.cannonballSys SystemId.cameraSys
      [SystemId.cameraSys, SystemId.aiTankSys, SystemId.cannonballSys] := by
  constructor
  · refine ⟨by decide, ?_⟩
    intro c hc
    simp [update_ordering_edges] at hc
  · intro h
    simp [RunsBefore, List.indexOf, List.findIdx, List.findIdx.go] at h

/-- C7 amended: the three passes are all registered on the Update schedule,
but the code declares no ordering constraint between them, so every
permutation of (Agent Motion System, Camera Tracker, Projectile Integrator)
is a valid execution order of a tick; no agents → projectiles → camera
sequencing is enforced. -/
theorem C7_no_enforced_order (e : List SystemId) (h : e.Perm update_systems) :
    ValidTickOrder e := by
  refine ⟨h, ?_⟩
  intro c hc
  simp [update_ordering_edges] at hc

/-- C7 witness: the fully reversed order is a valid tick order. -/
theorem C7_no_enforced_order_witness :
    ValidTickOrder [SystemId.cannonballSys, SystemId.cameraSys, SystemId.aiTankSys] :=
  C7_no_enforced_order [SystemId.cannonballSys, SystemId.cameraSys, SystemId.aiTankSys]
    (by decide)

/-! ## Exact-fraction mirror of the Projectile Integrator

All constants of cannonball_update (0.1, 0.8, 9.82, the 1/60 tick) are
rational, so the real-valued trajectory of a cannonball from a rational
start state stays rational. To settle the despawn-termination claim by
computation, the step is mirrored on a normalized integer-fraction type
whose every operation the kernel can evaluate; the Good predicates relate
each mirror state to the real state of cannonball_update, and the mirror
is proved to simulate the real step exactly. -/

/-- A fraction num/den of an integer and a natural (kept positive). -/
structure Frac where
  num : ℤ
  den : ℕ
deriving DecidableEq

/-- Normalized fraction n/d, dividing both by gcd. -/
def Frac.norm (n : ℤ) (d : ℕ) : Frac :=
  let g := n.natAbs.gcd d
  ⟨n / (g : ℤ), d / g⟩

/-- Fraction addition, normalized. -/
def Frac.add (a b : Frac) : Frac :=
  Frac.norm (a.num * (b.den : ℤ) + b.num * (a.den : ℤ)) (a.den * b.den)

/-- Fraction multiplication, normalized. -/
def Frac.mul (a b : Frac) : Frac :=
  Frac.norm (a.num * b.num) (a.den * b.den)

/-- Fraction subtraction, normalized. -/
def Frac.sub (a b : Frac) : Frac :=
  Frac.norm (a.num * (b.den : ℤ) - b.num * (a.den : ℤ)) (a.den * b.den)

/-- Strict comparison of fractions by cross-multiplication. -/
def Frac.blt (a b : Frac) : Bool :=
  decide (a.num * (b.den : ℤ) < b.num * (a.den : ℤ))

/-- The real number a fraction denotes. -/
noncomputable def Frac.val (a : Frac) : ℝ := (a.num : ℝ) / (a.den : ℝ)

/-- A fraction is a good representation of a real number when its
denominator is positive and its value is that number. -/
def Frac.Good (a : Frac) (r : ℝ) : Prop := 0 < a.den ∧ a.val = r

theorem Frac.norm_den_pos (n : ℤ) (d : ℕ) (hd : 0 < d) : 0 < (Frac.norm n d).den :=
  Nat.div_pos (Nat.le_of_dvd hd (Nat.gcd_dvd_right _ _)) (Nat.gcd_pos_of_pos_right _ hd)

theorem Frac.val_norm (n : ℤ) (d : ℕ) (hd : 0 < d) :
    (Frac.norm n d).val = (n : ℝ) / (d : ℝ) := by
  unfold Frac.norm Frac.val
  have hg1 : ((n.natAbs.gcd d : ℤ)) ∣ n :=
    dvd_trans (Int.natCast_dvd_natCast.mpr (Nat.gcd_dvd_left _ _)) (Int.natAbs_dvd.mpr dvd_rfl)
  have hg2 : n.natAbs.gcd d ∣ d := Nat.gcd_dvd_right _ _
  have hgpos : 0 < n.natAbs.gcd d := Nat.gcd_pos_of_pos_right _ hd
  have hn : ((n.natAbs.gcd d : ℤ)) * (n / (n.natAbs.gcd d : ℤ)) = n := Int.mul_ediv_cancel' hg1
  have hdq : (n.natAbs.gcd d) * (d / n.natAbs.gcd d) = d := Nat.mul_div_cancel' hg2
  have hgR : ((n.natAbs.gcd d : ℝ)) ≠ 0 := by positivity
  rw [show ((d : ℝ)) = ((n.natAbs.gcd d : ℝ)) * ((d / n.natAbs.gcd d : ℕ) : ℝ) by
        rw [← Nat.cast_mul, hdq]]
  rw [show ((n : ℝ)) = ((n.natAbs.gcd d : ℝ)) * ((n / (n.natAbs.gcd d : ℤ) : ℤ) : ℝ) by
        rw [show ((n.natAbs.gcd d : ℝ)) = (((n.natAbs.gcd d : ℤ)) : ℝ) by push_cast; ring]
        rw [← Int.cast_mul, hn]]
  rw [mul_div_mul_left _ _ hgR]

theorem Frac.Good.norm {n : ℤ} {d : ℕ} (hd : 0 < d) :
    (Frac.norm n d).Good ((n : ℝ) / (d : ℝ)) :=
  ⟨Frac.norm_den_pos n d hd, Frac.val_norm n d hd⟩

theorem Frac.Good.add {a b : Frac} {x y : ℝ} (ha : a.Good x) (hb : b.Good y) :
    (a.add b).Good (x + y) := by
  obtain ⟨had, hav⟩ := ha
  obtain ⟨hbd, hbv⟩ := hb
  have hmul : 0 < a.den * b.den := Nat.mul_pos had hbd
  refine ⟨Frac.norm_den_pos _ _ hmul, ?_⟩
  unfold Frac.add
  rw [Frac.val_norm _ _ hmul, ← hav, ← hbv]
  unfold Frac.val
  have h1 : ((a.den : ℝ)) ≠ 0 := by positivity
  have h2 : ((b.den : ℝ)) ≠ 0 := by positivity
  field_simp
  try push_cast
  try ring

theorem Frac.Good.mul {a b : Frac} {x y : ℝ} (ha : a.Good x) (hb : b.Good y) :
    (a.mul b).Good (x * y) := by
  obtain ⟨had, hav⟩ := ha
  obtain ⟨hbd, hbv⟩ := hb
  have hmul : 0 < a.den * b.den := Nat.mul_pos had hbd
  refine ⟨Frac.norm_den_pos _ _ hmul, ?_⟩
  unfold Frac.mul
  rw [Frac.val_norm _ _ hmul, ← hav, ← hbv]
  unfold Frac.val
  have h1 : ((a.den : ℝ)) ≠ 0 := by positivity
  have h2 : ((b.den : ℝ)) ≠ 0 := by positivity
  field_simp
  try push_cast
  try ring

theorem Frac.Good.sub {a b : Frac} {x y : ℝ} (ha : a.Good x) (hb : b.Good y) :
    (a.sub b).Good (x - y) := by
  obtain ⟨had, hav⟩ := ha
  obtain ⟨hbd, hbv⟩ := hb
  have hmul : 0 < a.den * b.den := Nat.mul_pos had hbd
  refine ⟨Frac.norm_den_pos _ _ hmul, ?_⟩
  unfold Frac.sub
  rw [Frac.val_norm _ _ hmul, ← hav, ← hbv]
  unfold Frac.val
  have h1 : ((a.den : ℝ)) ≠ 0 := by positivity
  have h2 : ((b.den : ℝ)) ≠ 0 := by positivity
  field_simp
  try push_cast
  try ring

theorem Frac.Good.blt_iff {a b : Frac} {x y : ℝ} (ha : a.Good x) (hb : b.Good y) :
    (a.blt b = true) ↔ x < y := by
  obtain ⟨had, hav⟩ := ha
  obtain ⟨hbd, hbv⟩ := hb
  unfold Frac.blt
  rw [decide_eq_true_eq, ← hav, ← hbv]
  unfold Frac.val
  rw [div_lt_div_iff₀ (by exact_mod_cast had) (by exact_mod_cast hbd)]
  constructor
  · intro h
    exact_mod_cast h
  · intro h
    exact_mod_cast h

/-- Triple of fractions mirroring a Vec3. -/
structure FVec3 where
  x : Frac
  y : Frac
  z : Frac
deriving DecidableEq

/-- A fraction triple is Good for a Vec3 when it is componentwise Good. -/
def FVec3.Good3 (a : FVec3) (v : Vec3) : Prop :=
  a.x.Good v.x ∧ a.y.Good v.y ∧ a.z.Good v.z

/-- The 1/60 s tick as a fraction. -/
def fdt : Frac := ⟨1, 60⟩

/-- Exact-fraction mirror of one cannonball_update tick at dt = 1/60,
operation for operation: translate by v * dt, bounce below 1/10 with
damping (4/5, -4/5, 4/5), subtract the gravity increment 491/50 * 1/60 from
the vertical velocity, and despawn when the squared speed is below 1/10. -/
def fcannonball_step (p v : FVec3) : FVec3 × FVec3 × Bool :=
  let p1 : FVec3 := ⟨p.x.add (v.x.mul fdt), p.y.add (v.y.mul fdt), p.z.add (v.z.mul fdt)⟩
  let bounce := p1.y.blt ⟨1, 10⟩
  let p2 : FVec3 :=
    if bounce = true then ⟨p1.x, p1.y.add ((⟨1, 10⟩ : Frac).sub p1.y), p1.z⟩ else p1
  let v2 : FVec3 :=
    if bounce = true then ⟨v.x.mul ⟨4, 5⟩, v.y.mul ⟨-4, 5⟩, v.z.mul ⟨4, 5⟩⟩ else v
  let v3 : FVec3 := ⟨v2.x, v2.y.sub ((⟨491, 50⟩ : Frac).mul fdt), v2.z⟩
  let len2 := ((v3.x.mul v3.x).add (v3.y.mul v3.y)).add (v3.z.mul v3.z)
  (p2, v3, len2.blt ⟨1, 10⟩)

/-- Iterated fraction mirror of the integrator at dt = 1/60. -/
def fcannonball_iterate (s : FVec3 × FVec3) : ℕ → FVec3 × FVec3
  | 0 => s
  | n + 1 =>
      let r := fcannonball_step (fcannonball_iterate s n).1 (fcannonball_iterate s n).2
      (r.1, r.2.1)

theorem frac_good_dt : fdt.Good (1 / 60 : ℝ) := by
  refine ⟨by decide, ?_⟩
  unfold fdt Frac.val
  push_cast
  norm_num

theorem frac_good_tenth : (⟨1, 10⟩ : Frac).Good (0.1 : ℝ) := by
  refine ⟨by norm_num, ?_⟩
  unfold Frac.val
  push_cast
  norm_num

theorem frac_good_damp : (⟨4, 5⟩ : Frac).Good (0.8 : ℝ) := by
  refine ⟨by norm_num, ?_⟩
  unfold Frac.val
  push_cast
  norm_num

theorem frac_good_dampneg : (⟨-4, 5⟩ : Frac).Good (-0.8 : ℝ) := by
  refine ⟨by norm_num, ?_⟩
  unfold Frac.val
  push_cast
  norm_num

theorem frac_good_grav : (⟨491, 50⟩ : Frac).Good (9.82 : ℝ) := by
  refine ⟨by norm_num, ?_⟩
  unfold Frac.val
  push_cast
  norm_num

/-- Comparison of values through the Good relation, as a proposition on the
cross-multiplied integers. -/
theorem Frac.Good.lt_iff {a b : Frac} {x y : ℝ} (ha : a.Good x) (hb : b.Good y) :
    (a.num * (b.den : ℤ) < b.num * (a.den : ℤ)) ↔ x < y := by
  have h := Frac.Good.blt_iff ha hb
  rw [Frac.blt, decide_eq_true_eq] at h
  exact h

/-- The fraction mirror simulates one real cannonball_update tick exactly:
componentwise Good states step to componentwise Good states, and the two
despawn flags agree. -/
theorem fcannonball_step_good (p v : FVec3) (t : Transform) (w : Vec3)
    (hp : p.Good3 t.translation) (hv : v.Good3 w) :
    ((fcannonball_step p v).1).Good3 ((cannonball_update (1/60) t w).1.translation) ∧
    ((fcannonball_step p v).2.1).Good3 ((cannonball_update (1/60) t w).2.1) ∧
    ((fcannonball_step p v).2.2) = ((cannonball_update (1/60) t w).2.2) := by
  obtain ⟨hpx, hpy, hpz⟩ := hp
  obtain ⟨hvx, hvy, hvz⟩ := hv
  have hp1x := hpx.add (hvx.mul frac_good_dt)
  have hp1y := hpy.add (hvy.mul frac_good_dt)
  have hp1z := hpz.add (hvz.mul frac_good_dt)
  unfold fcannonball_step cannonball_update
  dsimp only
  simp only [Vec3.add_x, Vec3.add_y, Vec3.add_z, Vec3.scale_x, Vec3.scale_y, Vec3.scale_z,
    Vec3.cmul_x, Vec3.cmul_y, Vec3.cmul_z]
  split_ifs with h1 h2 h3
  · have hvyd : ((v.y.mul ⟨-4, 5⟩).sub ((⟨491, 50⟩ : Frac).mul fdt)).Good
        (w.y * (-0.8) - 9.82 * (1 / 60)) :=
      (hvy.mul frac_good_dampneg).sub (frac_good_grav.mul frac_good_dt)
    refine ⟨⟨hp1x, ?_, hp1z⟩, ⟨hvx.mul frac_good_damp, hvyd, hvz.mul frac_good_damp⟩, ?_⟩
    · exact hp1y.add (frac_good_tenth.sub hp1y)
    · have hlen := ((hvx.mul frac_good_damp).mul (hvx.mul frac_good_damp)).add
        (hvyd.mul hvyd) |>.add ((hvz.mul frac_good_damp).mul (hvz.mul frac_good_damp))
      show Frac.blt _ _ = decide (Vec3.length_squared _ < 0.1)
      unfold Frac.blt Vec3.length_squared Vec3.dot
      dsimp only
      rw [decide_eq_decide]
      exact Frac.Good.lt_iff hlen frac_good_tenth
  · exact absurd ((Frac.Good.blt_iff hp1y frac_good_tenth).mp h1) h2
  · exact absurd ((Frac.Good.blt_iff hp1y frac_good_tenth).mpr h3) h1
  · have hvyd : (v.y.sub ((⟨491, 50⟩ : Frac).mul fdt)).Good (w.y - 9.82 * (1 / 60)) :=
      hvy.sub (frac_good_grav.mul frac_good_dt)
    refine ⟨⟨hp1x, hp1y, hp1z⟩, ⟨hvx, hvyd, hvz⟩, ?_⟩
    have hlen := (hvx.mul hvx).add (hvyd.mul hvyd) |>.add (hvz.mul hvz)
    show Frac.blt _ _ = decide (Vec3.length_squared _ < 0.1)
    unfold Frac.blt Vec3.length_squared Vec3.dot
    dsimp only
    rw [decide_eq_decide]
    exact Frac.Good.lt_iff hlen frac_good_tenth

/-- The fraction mirror simulates any number of real integrator ticks. -/
theorem fcannonball_iterate_good (s : FVec3 × FVec3) (r : Transform × Vec3)
    (h1 : s.1.Good3 r.1.translation) (h2 : s.2.Good3 r.2) (n : ℕ) :
    (fcannonball_iterate s n).1.Good3
      ((cannonball_iterate (fun _ => 1/60) r n).1.translation) ∧
    (fcannonball_iterate s n).2.Good3 ((cannonball_iterate (fun _ => 1/60) r n).2) := by
  induction n with
  | zero => exact ⟨h1, h2⟩
  | succ n ih =>
      have hstep := fcannonball_step_good _ _ _ _ ih.1 ih.2
      exact ⟨hstep.1, hstep.2.1⟩

/-- Splitting iterated mirror ticks at an intermediate state. -/
theorem fcannonball_iterate_add (s : FVec3 × FVec3) (n m : ℕ) :
    fcannonball_iterate s (n + m) = fcannonball_iterate (fcannonball_iterate s n) m := by
  induction m with
  | zero => rfl
  | succ m ih =>
      show (let r := fcannonball_step (fcannonball_iterate s (n + m)).1
              (fcannonball_iterate s (n + m)).2
            (r.1, r.2.1)) = _
      rw [ih]
      rfl

/-- The cannonball state spawned by a tank at the default pose, as exact
fractions: position (0, 247/200, 81/250), velocity (0, 717/50, 16). -/
def fstart : FVec3 × FVec3 :=
  (⟨⟨0, 1⟩, ⟨247, 200⟩, ⟨81, 250⟩⟩, ⟨⟨0, 1⟩, ⟨717, 50⟩, ⟨16, 1⟩⟩)

def fs50 : FVec3 × FVec3 :=
  (⟨⟨0, 1⟩, ⟨70873, 7200⟩, ⟨10243, 750⟩⟩,
   ⟨⟨0, 1⟩, ⟨1847, 300⟩, ⟨16, 1⟩⟩)

def fs100 : FVec3 × FVec3 :=
  (⟨⟨0, 1⟩, ⟨4653, 400⟩, ⟨20243, 750⟩⟩,
   ⟨⟨0, 1⟩, ⟨-152, 75⟩, ⟨16, 1⟩⟩)

def fs150 : FVec3 × FVec3 :=
  (⟨⟨0, 1⟩, ⟨3169, 480⟩, ⟨10081, 250⟩⟩,
   ⟨⟨0, 1⟩, ⟨-1021, 100⟩, ⟨16, 1⟩⟩)

def fs200 : FVec3 × FVec3 :=
  (⟨⟨0, 1⟩, ⟨307091, 90000⟩, ⟨13161, 250⟩⟩,
   ⟨⟨0, 1⟩, ⟨6617, 750⟩, ⟨64, 5⟩⟩)

def fs250 : FVec3 × FVec3 :=
  (⟨⟨0, 1⟩, ⟨445369, 60000⟩, ⟨47483, 750⟩⟩,
   ⟨⟨0, 1⟩, ⟨959, 1500⟩, ⟨64, 5⟩⟩)

def fs300 : FVec3 × FVec3 :=
  (⟨⟨0, 1⟩, ⟨69211, 15000⟩, ⟨55483, 750⟩⟩,
   ⟨⟨0, 1⟩, ⟨-943, 125⟩, ⟨64, 5⟩⟩)

def fs350 : FVec3 × FVec3 :=
  (⟨⟨0, 1⟩, ⟨2627117, 900000⟩, ⟨62779, 750⟩⟩,
   ⟨⟨0, 1⟩, ⟨87091, 15000⟩, ⟨256, 25⟩⟩)

def fs400 : FVec3 × FVec3 :=
  (⟨⟨0, 1⟩, ⟨110397, 25000⟩, ⟨69179, 750⟩⟩,
   ⟨⟨0, 1⟩, ⟨-35659, 15000⟩, ⟨256, 25⟩⟩)

def fs450 : FVec3 × FVec3 :=
  (⟨⟨0, 1⟩, ⟨1193867, 1500000⟩, ⟨125709, 1250⟩⟩,
   ⟨⟨0, 1⟩, ⟨159657, 25000⟩, ⟨1024, 125⟩⟩)

def fs500 : FVec3 × FVec3 :=
  (⟨⟨0, 1⟩, ⟨3123319, 1125000⟩, ⟨402727, 3750⟩⟩,
   ⟨⟨0, 1⟩, ⟨-134779, 75000⟩, ⟨1024, 125⟩⟩)

def fs550 : FVec3 × FVec3 :=
  (⟨⟨0, 1⟩, ⟨27412249, 22500000⟩, ⟨711489, 6250⟩⟩,
   ⟨⟨0, 1⟩, ⟨1336991, 375000⟩, ⟨4096, 625⟩⟩)

def fs600 : FVec3 × FVec3 :=
  (⟨⟨0, 1⟩, ⟨1192339, 1406250⟩, ⟨2236867, 18750⟩⟩,
   ⟨⟨0, 1⟩, ⟨-577253, 125000⟩, ⟨4096, 625⟩⟩)

def fs650 : FVec3 × FVec3 :=
  (⟨⟨0, 1⟩, ⟨111563101, 112500000⟩, ⟨3870789, 31250⟩⟩,
   ⟨⟨0, 1⟩, ⟨-1998857, 937500⟩, ⟨16384, 3125⟩⟩)

def fs700 : FVec3 × FVec3 :=
  (⟨⟨0, 1⟩, ⟨104336993, 187500000⟩, ⟨19943769, 156250⟩⟩,
   ⟨⟨0, 1⟩, ⟨-19299769, 9375000⟩, ⟨65536, 15625⟩⟩)

def fs750 : FVec3 × FVec3 :=
  (⟨⟨0, 1⟩, ⟨1227491767, 4687500000⟩, ⟨509800881, 3906250⟩⟩,
   ⟨⟨0, 1⟩, ⟨81704357, 78125000⟩, ⟨1048576, 390625⟩⟩)

def fs800 : FVec3 × FVec3 :=
  (⟨⟨0, 1⟩, ⟨11691040147, 70312500000⟩, ⟨7758162271, 58593750⟩⟩,
   ⟨⟨0, 1⟩, ⟨-2944518989, 5859375000⟩, ⟨16777216, 9765625⟩⟩)

def fs835 : FVec3 × FVec3 :=
  (⟨⟨0, 1⟩, ⟨1, 10⟩, ⟨203067724779921, 1525878906250⟩⟩,
   ⟨⟨0, 1⟩, ⟨-57790944243599, 457763671875000⟩, ⟨274877906944, 762939453125⟩⟩)

set_option maxRecDepth 40000 in
/-- The mirror trajectory, evaluated in 50-tick chunks: 835 ticks from the
spawn state. -/
theorem fiter_835 : fcannonball_iterate fstart 835 = fs835 := by
  have e50 : fcannonball_iterate fstart 50 = fs50 := by decide
  have e100 : fcannonball_iterate fs50 50 = fs100 := by decide
  have e150 : fcannonball_iterate fs100 50 = fs150 := by decide
  have e200 : fcannonball_iterate fs150 50 = fs200 := by decide
  have e250 : fcannonball_iterate fs200 50 = fs250 := by decide
  have e300 : fcannonball_iterate fs250 50 = fs300 := by decide
  have e350 : fcannonball_iterate fs300 50 = fs350 := by decide
  have e400 : fcannonball_iterate fs350 50 = fs400 := by decide
  have e450 : fcannonball_iterate fs400 50 = fs450 := by decide
  have e500 : fcannonball_iterate fs450 50 = fs500 := by decide
  have e550 : fcannonball_iterate fs500 50 = fs550 := by decide
  have e600 : fcannonball_iterate fs550 50 = fs600 := by decide
  have e650 : fcannonball_iterate fs600 50 = fs650 := by decide
  have e700 : fcannonball_iterate fs650 50 = fs700 := by decide
  have e750 : fcannonball_iterate fs700 50 = fs750 := by decide
  have e800 : fcannonball_iterate fs750 50 = fs800 := by decide
  have e835 : fcannonball_iterate fs800 35 = fs835 := by decide
  rw [show (835 : ℕ) = 800 + 35 by norm_num, fcannonball_iterate_add,
      show (800 : ℕ) = 750 + 50 by norm_num, fcannonball_iterate_add,
      show (750 : ℕ) = 700 + 50 by norm_num, fcannonball_iterate_add,
      show (700 : ℕ) = 650 + 50 by norm_num, fcannonball_iterate_add,
      show (650 : ℕ) = 600 + 50 by norm_num, fcannonball_iterate_add,
      show (600 : ℕ) = 550 + 50 by norm_num, fcannonball_iterate_add,
      show (550 : ℕ) = 500 + 50 by norm_num, fcannonball_iterate_add,
      show (500 : ℕ) = 450 + 50 by norm_num, fcannonball_iterate_add,
      show (450 : ℕ) = 400 + 50 by norm_num, fcannonball_iterate_add,
      show (400 : ℕ) = 350 + 50 by norm_num, fcannonball_iterate_add,
      show (350 : ℕ) = 300 + 50 by norm_num, fcannonball_iterate_add,
      show (300 : ℕ) = 250 + 50 by norm_num, fcannonball_iterate_add,
      show (250 : ℕ) = 200 + 50 by norm_num, fcannonball_iterate_add,
      show (200 : ℕ) = 150 + 50 by norm_num, fcannonball_iterate_add,
      show (150 : ℕ) = 100 + 50 by norm_num, fcannonball_iterate_add,
      show (100 : ℕ) = 50 + 50 by norm_num, fcannonball_iterate_add,
      e50, e100, e150, e200, e250, e300, e350, e400, e450, e500, e550, e600, e650, e700, e750, e800, e835]

/-- The spawn state of the mirror is Good for the real spawn state. -/
theorem fstart_good :
    fstart.1.Good3 (spawn_cannonball Transform.dflt).1.translation ∧
    fstart.2.Good3 (spawn_cannonball Transform.dflt).2 := by
  have h1 : (spawn_cannonball Transform.dflt).1.translation = ⟨0, 1.235, 0.324⟩ := by
    unfold spawn_cannonball Transform.dflt
    dsimp only
    rw [Quat.identity_mul_vec3]
    ext <;> simp
  have h2 : (spawn_cannonball Transform.dflt).2 = ⟨0, 14.34, 16⟩ := by
    unfold spawn_cannonball Transform.dflt
    dsimp only
    rw [Quat.identity_mul_vec3]
    ext <;> simp [Vec3.scale] <;> norm_num
  rw [h1, h2]
  unfold fstart
  refine ⟨⟨?_, ?_, ?_⟩, ?_, ?_, ?_⟩ <;>
    exact ⟨by norm_num, by unfold Frac.val; push_cast; norm_num⟩

set_option maxRecDepth 4000 in
/-- C9: the cannonball spawned by a tank at the default pose (muzzle speed
20 in local direction (0, 0.717, 0.8), i.e. initial velocity (0, 14.34, 16)),
integrated at 1/60 s per tick under gravity 9.82 and damping 0.8, raises its
despawn flag within 10000 ticks (concretely: on the tick after 835 prior
ticks, i.e. tick 836). -/
theorem C9_despawn_termination :
    ∃ n : ℕ, n < 10000 ∧
      (cannonball_update (1/60)
        (cannonball_iterate (fun _ => 1/60) (spawn_cannonball Transform.dflt) n).1
        (cannonball_iterate (fun _ => 1/60) (spawn_cannonball Transform.dflt) n).2).2.2
        = true := by
  refine ⟨835, by norm_num, ?_⟩
  have hinit := fstart_good
  have hiter := fcannonball_iterate_good fstart (spawn_cannonball Transform.dflt)
    hinit.1 hinit.2 835
  have hstep := fcannonball_step_good _ _ _ _ hiter.1 hiter.2
  rw [← hstep.2.2, fiter_835]
  decide

end Tanks
